import Mathlib

/-!
# ParkSense-AI analytics core: a shallow embedding with correctness proofs

This file embeds the analytics/simulation core of the ParkSense-AI repository
(`analyzer.py`, `features.py`, `policy_simulator.py`) as Lean definitions and
proves properties of the embedded code.

Modelling conventions:
* A pandas `DataFrame` of carpark rows is a `List CarparkRecord`; boolean-mask
  filtering is `List.filter`, `nlargest`/`nsmallest` are "sort by the column,
  take n" (pandas returns rows ordered by the column, with `keep='first'`).
* Python `float` arithmetic is modelled exactly: by `ℚ` where the source only
  does field arithmetic, and by `ℝ` where the source calls transcendental
  functions (`np.sin`, `np.arcsin`, `np.sqrt`, `np.radians`).
* Python `int(x)` truncates toward zero: `pyInt`.  Python/numpy `round(x, k)`
  rounds half to even: `pyRound1`, `pyRound2R`.
* pandas `Series.mean()`/`median()` of an empty column is `NaN`; we model a
  possibly-NaN float as `Option ℚ` with `none` for `NaN`.
* Python list slicing `l[-k:]` returns the whole list when `k = 0`
  (`l[-0:] = l[0:] = l`): `pySliceLast`.
* `datetime.now()` timestamps are presentation data irrelevant to every claim
  and are omitted from the embedded records.
-/

/-! ## Data model (`data_fetcher.to_dataframe` row schema) -/

/-- One row of the carpark dataset.  `latitude`/`longitude` are `none` when the
source location string was unparsable (pandas `NaN`), mirroring that such rows
are dropped from spatial operations. -/
structure CarparkRecord where
  carParkID : String
  development : String
  agency : String
  area : String
  availableLots : Int
  lotType : String
  latitude : Option ℚ
  longitude : Option ℚ
  status : String
deriving DecidableEq

/-- `df["AvailableLots"].sum()`. -/
def lotsSum (df : List CarparkRecord) : Int :=
  (df.map (fun r => r.availableLots)).sum

/-! ## Python numeric primitives -/

/-- Python `int(x)`: truncation toward zero. -/
def pyInt (q : ℚ) : Int :=
  if 0 ≤ q then ⌊q⌋ else ⌈q⌉

/-- Python `round(x)` (round half to even) on an exact rational. -/
def pyRoundInt (q : ℚ) : Int :=
  let f := ⌊q⌋
  if q - f < 1/2 then f
  else if 1/2 < q - f then f + 1
  else if f % 2 = 0 then f else f + 1

/-- Python `round(x, 1)`. -/
def pyRound1 (q : ℚ) : ℚ :=
  (pyRoundInt (q * 10) : ℚ) / 10

/-- pandas `Series.mean()`; `none` models the `NaN` produced on an empty
column. -/
def seriesMean (l : List Int) : Option ℚ :=
  if l.length = 0 then none else some ((l.sum : ℚ) / (l.length : ℚ))

/-! ## Generic sort-by-column machinery (pandas `sort_values` / `nlargest` /
`nsmallest`) -/

instance decRelKeyLe {α β : Type} [LinearOrder β] (key : α → β) :
    DecidableRel (fun a b => key a ≤ key b) :=
  fun a b => inferInstanceAs (Decidable (key a ≤ key b))

instance decRelKeyGe {α β : Type} [LinearOrder β] (key : α → β) :
    DecidableRel (fun a b => key b ≤ key a) :=
  fun a b => inferInstanceAs (Decidable (key b ≤ key a))

instance totalKeyLe {α β : Type} [LinearOrder β] (key : α → β) :
    IsTotal α (fun a b => key a ≤ key b) :=
  ⟨fun a b => le_total (key a) (key b)⟩

instance transKeyLe {α β : Type} [LinearOrder β] (key : α → β) :
    IsTrans α (fun a b => key a ≤ key b) :=
  ⟨fun _ _ _ hab hbc => le_trans hab hbc⟩

instance totalKeyGe {α β : Type} [LinearOrder β] (key : α → β) :
    IsTotal α (fun a b => key b ≤ key a) :=
  ⟨fun a b => le_total (key b) (key a)⟩

instance transKeyGe {α β : Type} [LinearOrder β] (key : α → β) :
    IsTrans α (fun a b => key b ≤ key a) :=
  ⟨fun _ _ _ hab hbc => le_trans hbc hab⟩

/-- `df.sort_values(column)` (ascending). -/
def sortAscBy {α β : Type} [LinearOrder β] (key : α → β) (l : List α) : List α :=
  List.insertionSort (fun a b => key a ≤ key b) l

/-- `df.sort_values(column, ascending=False)`. -/
def sortDescBy {α β : Type} [LinearOrder β] (key : α → β) (l : List α) : List α :=
  List.insertionSort (fun a b => key b ≤ key a) l

/-- pandas `df.nlargest(n, column)`: the n rows with the largest column values,
returned in descending column order. -/
def nlargestBy {α β : Type} [LinearOrder β] (key : α → β) (n : Nat) (l : List α) : List α :=
  (sortDescBy key l).take n

/-- pandas `df.nsmallest(n, column)`: the n rows with the smallest column
values, returned in ascending column order. -/
def nsmallestBy {α β : Type} [LinearOrder β] (key : α → β) (n : Nat) (l : List α) : List α :=
  (sortAscBy key l).take n

/-- pandas `Series.median()`: middle of the sorted values, mean of the two
middles for even length; `NaN` (`none`) on an empty column. -/
def seriesMedian (l : List Int) : Option ℚ :=
  if l.length = 0 then none
  else
    let s := sortAscBy id l
    let n := l.length
    if n % 2 = 1 then some ((s.getD (n / 2) 0 : Int) : ℚ)
    else some ((((s.getD (n / 2 - 1) 0 : Int) : ℚ) + ((s.getD (n / 2) 0 : Int) : ℚ)) / 2)

/-! ## `ParkingAnalyzer` (`analyzer.py`) -/

/-- `ParkingAnalyzer.stress_threshold_low`. -/
def stress_threshold_low : Int := 10

/-- `ParkingAnalyzer.stress_threshold_moderate`. -/
def stress_threshold_moderate : Int := 50

/-- `ParkingAnalyzer._get_health_status`. -/
def get_health_status (score : ℚ) : String :=
  if 80 ≤ score then "Excellent"
  else if 60 ≤ score then "Good"
  else if 40 ≤ score then "Moderate"
  else if 20 ≤ score then "Stressed"
  else "Critical"

/-- Result dictionary of `ParkingAnalyzer.analyze_overall_health`. -/
structure HealthReport where
  health_score : ℚ
  total_carparks : Nat
  total_available_lots : Int
  average_availability : Option ℚ
  median_availability : Option ℚ
  stressed_carparks : Nat
  moderate_carparks : Nat
  healthy_carparks : Nat
  stress_percentage : ℚ
  status : String
deriving DecidableEq

/-- `ParkingAnalyzer.analyze_overall_health`.  The function is total: the two
divisions by `total_carparks` are guarded exactly as in the source, and the
mean/median of an empty column come out as `NaN` (`none`). -/
def analyze_overall_health (df : List CarparkRecord) : HealthReport :=
  let total_carparks := df.length
  let total_lots := lotsSum df
  let stressed := (df.filter (fun r => r.availableLots ≤ stress_threshold_low)).length
  let moderate := (df.filter (fun r =>
    stress_threshold_low < r.availableLots ∧
      r.availableLots ≤ stress_threshold_moderate)).length
  let healthy := (df.filter (fun r => stress_threshold_moderate < r.availableLots)).length
  let health_score :=
    if 0 < total_carparks then pyRound1 ((healthy : ℚ) / (total_carparks : ℚ) * 100) else 0
  { health_score := health_score
    total_carparks := total_carparks
    total_available_lots := total_lots
    average_availability :=
      (seriesMean (df.map (fun r => r.availableLots))).map pyRound1
    median_availability :=
      (seriesMedian (df.map (fun r => r.availableLots))).map pyRound1
    stressed_carparks := stressed
    moderate_carparks := moderate
    healthy_carparks := healthy
    stress_percentage :=
      if 0 < total_carparks then pyRound1 ((stressed : ℚ) / (total_carparks : ℚ) * 100) else 0
    status := get_health_status health_score }

/-- `ParkingAnalyzer.identify_stress_points`. -/
def identify_stress_points (df : List CarparkRecord) (top_n : Nat) : List CarparkRecord :=
  let stressed_df := df.filter (fun r => r.availableLots ≤ stress_threshold_low)
  let stressed_df' :=
    if top_n < stressed_df.length then nlargestBy (fun r => r.availableLots) top_n stressed_df
    else stressed_df
  sortAscBy (fun r => r.availableLots) stressed_df'

/-! ## Sorting helper lemmas -/

lemma sortAscBy_perm {α β : Type} [LinearOrder β] (key : α → β) (l : List α) :
    (sortAscBy key l).Perm l :=
  List.perm_insertionSort _ l

lemma sortAscBy_sorted {α β : Type} [LinearOrder β] (key : α → β) (l : List α) :
    List.Sorted (fun a b => key a ≤ key b) (sortAscBy key l) :=
  List.sorted_insertionSort _ l

lemma sortDescBy_perm {α β : Type} [LinearOrder β] (key : α → β) (l : List α) :
    (sortDescBy key l).Perm l :=
  List.perm_insertionSort _ l

lemma sortDescBy_sorted {α β : Type} [LinearOrder β] (key : α → β) (l : List α) :
    List.Sorted (fun a b => key b ≤ key a) (sortDescBy key l) :=
  List.sorted_insertionSort _ l

lemma mem_nlargestBy {α β : Type} [LinearOrder β] {key : α → β} {n : Nat} {l : List α}
    {x : α} (hx : x ∈ nlargestBy key n l) : x ∈ l :=
  (sortDescBy_perm key l).mem_iff.mp (List.mem_of_mem_take hx)

/-- Every row kept by `nlargestBy` has a column value at least as large as any
row it discarded. -/
lemma nlargestBy_kept_ge_dropped {α β : Type} [LinearOrder β] {key : α → β} {n : Nat}
    {l : List α} {x y : α} (hx : x ∈ nlargestBy key n l) (hy : y ∈ l)
    (hy' : y ∉ nlargestBy key n l) : key y ≤ key x := by
  have hsorted : List.Pairwise (fun a b => key b ≤ key a) (sortDescBy key l) :=
    sortDescBy_sorted key l
  have hsplit : (sortDescBy key l).take n ++ (sortDescBy key l).drop n = sortDescBy key l :=
    List.take_append_drop n (sortDescBy key l)
  have hpw := hsplit ▸ hsorted
  have hy2 : y ∈ sortDescBy key l := (sortDescBy_perm key l).mem_iff.mpr hy
  have hy3 : y ∈ (sortDescBy key l).drop n := by
    rcases (List.mem_append.mp (hsplit ▸ hy2)) with h | h
    · exact absurd h hy'
    · exact h
  exact (List.pairwise_append.mp hpw).2.2 x hx y hy3

/-! ## C1: `identify_stress_points` -/

/-- C1: for every dataset and every `top_n`, `identify_stress_points` returns
only records with `AvailableLots ≤ 10`, returns at most `top_n` records sorted
ascending by `AvailableLots`; when the stressed subset exceeds `top_n` the
result is exactly (a permutation of) the `top_n` records with the largest
`AvailableLots` among the stressed subset — every returned record has at least
as many lots as every stressed record left out — and when the stressed subset
fits in `top_n` no truncation happens: the result is a permutation of the whole
stressed subset. -/
theorem identify_stress_points_spec (df : List CarparkRecord) (top_n : Nat) :
    (∀ r ∈ identify_stress_points df top_n, r.availableLots ≤ 10) ∧
    (identify_stress_points df top_n).length ≤ top_n ∧
    List.Sorted (fun a b : CarparkRecord => a.availableLots ≤ b.availableLots)
      (identify_stress_points df top_n) ∧
    (top_n < (df.filter (fun r => r.availableLots ≤ 10)).length →
      (identify_stress_points df top_n).Perm
        (nlargestBy (fun r => r.availableLots) top_n
          (df.filter (fun r => r.availableLots ≤ 10))) ∧
      ∀ x ∈ identify_stress_points df top_n,
        ∀ y ∈ df.filter (fun r => r.availableLots ≤ 10),
          y ∉ identify_stress_points df top_n → y.availableLots ≤ x.availableLots) ∧
    ((df.filter (fun r => r.availableLots ≤ 10)).length ≤ top_n →
      (identify_stress_points df top_n).Perm
        (df.filter (fun r => r.availableLots ≤ 10))) := by
  simp only [identify_stress_points, stress_threshold_low]
  set stressed := df.filter (fun r => r.availableLots ≤ (10 : Int)) with hstressed
  by_cases h : top_n < stressed.length
  · simp only [if_pos h]
    set res := sortAscBy (fun r : CarparkRecord => r.availableLots)
      (nlargestBy (fun r : CarparkRecord => r.availableLots) top_n stressed) with hres
    have hperm : res.Perm (nlargestBy (fun r : CarparkRecord => r.availableLots) top_n stressed) :=
      sortAscBy_perm _ _
    have hmem_stressed : ∀ r ∈ res, r ∈ stressed := fun r hr =>
      mem_nlargestBy (hperm.mem_iff.mp hr)
    refine ⟨?_, ?_, sortAscBy_sorted _ _, ?_, ?_⟩
    · intro r hr
      have := hmem_stressed r hr
      rw [hstressed, List.mem_filter] at this
      exact of_decide_eq_true this.2
    · calc res.length
          = (nlargestBy (fun r : CarparkRecord => r.availableLots) top_n stressed).length :=
            hperm.length_eq
        _ ≤ top_n := by
            simp only [nlargestBy, List.length_take]
            exact min_le_left _ _
    · intro _
      refine ⟨hperm, ?_⟩
      intro x hx y hy hy'
      have hx' : x ∈ nlargestBy (fun r : CarparkRecord => r.availableLots) top_n stressed :=
        hperm.mem_iff.mp hx
      have hy2 : y ∉ nlargestBy (fun r : CarparkRecord => r.availableLots) top_n stressed :=
        fun hc => hy' (hperm.mem_iff.mpr hc)
      exact nlargestBy_kept_ge_dropped hx' hy hy2
    · intro h'
      exact absurd h (not_lt.mpr h')
  · simp only [if_neg h]
    have hperm : (sortAscBy (fun r : CarparkRecord => r.availableLots) stressed).Perm stressed :=
      sortAscBy_perm _ _
    refine ⟨?_, ?_, sortAscBy_sorted _ _, ?_, fun _ => hperm⟩
    · intro r hr
      have := hperm.mem_iff.mp hr
      rw [hstressed, List.mem_filter] at this
      exact of_decide_eq_true this.2
    · rw [hperm.length_eq]
      exact not_lt.mp h
    · intro h'
      exact absurd h' h

/-- C1 witness: on a concrete dataset with three stressed records and
`top_n = 2`, the truncating branch applies and the result is a permutation of
the two largest stressed records. -/
theorem identify_stress_points_spec_witness :
    (identify_stress_points
        [⟨"W1", "W One", "HDB", "", 0, "C", none, none, "Limited"⟩,
         ⟨"W2", "W Two", "HDB", "", 7, "C", none, none, "Limited"⟩,
         ⟨"W3", "W Three", "URA", "", 3, "C", none, none, "Limited"⟩,
         ⟨"W4", "W Four", "URA", "", 99, "C", none, none, "Available"⟩] 2).Perm
      (nlargestBy (fun r => r.availableLots) 2
        (([⟨"W1", "W One", "HDB", "", 0, "C", none, none, "Limited"⟩,
           ⟨"W2", "W Two", "HDB", "", 7, "C", none, none, "Limited"⟩,
           ⟨"W3", "W Three", "URA", "", 3, "C", none, none, "Limited"⟩,
           ⟨"W4", "W Four", "URA", "", 99, "C", none, none, "Available"⟩] :
            List CarparkRecord).filter (fun r => r.availableLots ≤ 10))) :=
  ((identify_stress_points_spec _ 2).2.2.2.1 (by decide)).1

/-! ## C8: the stress tiers partition every dataset -/

lemma stress_tiers_partition (df : List CarparkRecord) :
    (df.filter (fun r => r.availableLots ≤ stress_threshold_low)).length +
      (df.filter (fun r => stress_threshold_low < r.availableLots ∧
        r.availableLots ≤ stress_threshold_moderate)).length +
      (df.filter (fun r => stress_threshold_moderate < r.availableLots)).length =
      df.length := by
  simp only [stress_threshold_low, stress_threshold_moderate, Bool.decide_and]
  induction df with
  | nil => rfl
  | cons r t ih =>
    simp only [List.filter_cons, List.length_cons]
    by_cases h1 : r.availableLots ≤ (10 : Int)
    · have h2 : ¬ ((10 : Int) < r.availableLots) := not_lt.mpr h1
      have h3 : ¬ ((50 : Int) < r.availableLots) := by omega
      simp [h1, h2, h3]
      omega
    · by_cases h2 : r.availableLots ≤ (50 : Int)
      · have h1' : (10 : Int) < r.availableLots := not_le.mp h1
        have h3 : ¬ ((50 : Int) < r.availableLots) := not_lt.mpr h2
        simp [h1, h1', h2, h3]
        omega
      · have h3 : (50 : Int) < r.availableLots := not_le.mp h2
        simp [h1, h2, h3]
        omega

/-- C8: for every non-empty dataset, the stressed / moderate / healthy counts
reported by `analyze_overall_health` add up to the total record count: the
three stress tiers partition the records. -/
theorem analyze_overall_health_partition (df : List CarparkRecord) (_hdf : df ≠ []) :
    (analyze_overall_health df).stressed_carparks +
      (analyze_overall_health df).moderate_carparks +
      (analyze_overall_health df).healthy_carparks =
      (analyze_overall_health df).total_carparks := by
  simp only [analyze_overall_health]
  exact stress_tiers_partition df

/-- C8 witness: the partition identity evaluated on a concrete three-record
dataset. -/
theorem analyze_overall_health_partition_witness :
    ([⟨"A1", "Alpha Centre", "HDB", "", 5, "C", some (27/20), some (51911/500), "Limited"⟩,
      ⟨"B2", "Beta Tower", "LTA", "Downtown", 30, "C", some (13/10), some (2077/20), "Moderate"⟩,
      ⟨"C3", "Gamma Mall", "URA", "", 80, "C", none, none, "Available"⟩] ≠
        ([] : List CarparkRecord)) ∧
    (analyze_overall_health
        [⟨"A1", "Alpha Centre", "HDB", "", 5, "C", some (27/20), some (51911/500), "Limited"⟩,
         ⟨"B2", "Beta Tower", "LTA", "Downtown", 30, "C", some (13/10), some (2077/20), "Moderate"⟩,
         ⟨"C3", "Gamma Mall", "URA", "", 80, "C", none, none, "Available"⟩]).stressed_carparks +
      (analyze_overall_health
        [⟨"A1", "Alpha Centre", "HDB", "", 5, "C", some (27/20), some (51911/500), "Limited"⟩,
         ⟨"B2", "Beta Tower", "LTA", "Downtown", 30, "C", some (13/10), some (2077/20), "Moderate"⟩,
         ⟨"C3", "Gamma Mall", "URA", "", 80, "C", none, none, "Available"⟩]).moderate_carparks +
      (analyze_overall_health
        [⟨"A1", "Alpha Centre", "HDB", "", 5, "C", some (27/20), some (51911/500), "Limited"⟩,
         ⟨"B2", "Beta Tower", "LTA", "Downtown", 30, "C", some (13/10), some (2077/20), "Moderate"⟩,
         ⟨"C3", "Gamma Mall", "URA", "", 80, "C", none, none, "Available"⟩]).healthy_carparks =
      (analyze_overall_health
        [⟨"A1", "Alpha Centre", "HDB", "", 5, "C", some (27/20), some (51911/500), "Limited"⟩,
         ⟨"B2", "Beta Tower", "LTA", "Downtown", 30, "C", some (13/10), some (2077/20), "Moderate"⟩,
         ⟨"C3", "Gamma Mall", "URA", "", 80, "C", none, none, "Available"⟩]).total_carparks :=
  ⟨by decide, analyze_overall_health_partition _ (by decide)⟩

/-! ## C3: `analyze_overall_health` on the empty dataset -/

/-- C3 counterexample: on the empty dataset the guarded fields are zero and the
function is total, but the claim that *all* aggregate fields are zero/neutral
fails — pandas `mean()`/`median()` of an empty column is `NaN` (`none`), not a
neutral number. -/
theorem analyze_overall_health_empty_counterexample :
    ¬ ((analyze_overall_health []).health_score = 0 ∧
       (analyze_overall_health []).total_carparks = 0 ∧
       (analyze_overall_health []).total_available_lots = 0 ∧
       (analyze_overall_health []).stressed_carparks = 0 ∧
       (analyze_overall_health []).stress_percentage = 0 ∧
       (analyze_overall_health []).average_availability = some 0 ∧
       (analyze_overall_health []).median_availability = some 0) := by
  decide

/-- C3 amended: on the empty dataset `analyze_overall_health` is total (never
raises), `health_score` is 0, every count, sum and percentage is 0 and the
status is "Critical"; however `average_availability` and `median_availability`
are `NaN` (modelled `none`), not zero. -/
theorem analyze_overall_health_empty :
    (analyze_overall_health []).health_score = 0 ∧
    (analyze_overall_health []).total_carparks = 0 ∧
    (analyze_overall_health []).total_available_lots = 0 ∧
    (analyze_overall_health []).stressed_carparks = 0 ∧
    (analyze_overall_health []).moderate_carparks = 0 ∧
    (analyze_overall_health []).healthy_carparks = 0 ∧
    (analyze_overall_health []).stress_percentage = 0 ∧
    (analyze_overall_health []).average_availability = none ∧
    (analyze_overall_health []).median_availability = none ∧
    (analyze_overall_health []).status = "Critical" := by
  decide

/-! ## `HistoricalTracker` (`features.py`) -/

/-- Per-agency block of a tracker snapshot (`snapshot["by_agency"][agency]`). -/
structure AgencySnap where
  available : Int
  carparks : Nat
  stressed : Nat
deriving DecidableEq

/-- A tracker snapshot (`HistoricalTracker.add_snapshot`'s `snapshot` dict,
minus the wall-clock timestamp). -/
structure Snapshot where
  total_carparks : Nat
  total_available : Int
  by_agency : List (String × AgencySnap)
  status_available : Nat
  status_moderate : Nat
  status_limited : Nat
  stressed_count : Nat
  top_available : List (String × String × Int)
  most_stressed : List (String × String × Int)
deriving DecidableEq

/-- pandas `Series.unique()`: values in first-occurrence order. -/
def uniqueFirst (l : List String) : List String :=
  l.foldl (fun acc x => if x ∈ acc then acc else acc ++ [x]) []

/-- The snapshot dict built at the top of `HistoricalTracker.add_snapshot`. -/
def mkSnapshot (df : List CarparkRecord) : Snapshot :=
  { total_carparks := df.length
    total_available := lotsSum df
    by_agency := (uniqueFirst (df.map (fun r => r.agency))).map (fun ag =>
      (ag,
        { available := lotsSum (df.filter (fun r => r.agency = ag))
          carparks := (df.filter (fun r => r.agency = ag)).length
          stressed := ((df.filter (fun r => r.agency = ag)).filter
            (fun r => r.availableLots ≤ 10)).length }))
    status_available := (df.filter (fun r => r.status = "Available")).length
    status_moderate := (df.filter (fun r => r.status = "Moderate")).length
    status_limited := (df.filter (fun r => r.status = "Limited")).length
    stressed_count := (df.filter (fun r => r.availableLots ≤ 10)).length
    top_available := (nlargestBy (fun r => r.availableLots) 5 df).map
      (fun r => (r.development, r.agency, r.availableLots))
    most_stressed := (nsmallestBy (fun r => r.availableLots) 5 df).map
      (fun r => (r.development, r.agency, r.availableLots)) }

/-- Python list slice `l[-k:]`.  For `k = 0` Python returns the whole list
(`l[-0:]` is `l[0:]`), not the empty suffix — this edge case is what breaks the
capacity bound at `max_snapshots = 0`. -/
def pySliceLast {α : Type} (k : Nat) (l : List α) : List α :=
  if k = 0 then l else l.drop (l.length - k)

/-- The append-then-trim step of `HistoricalTracker.add_snapshot`:
`self.snapshots.append(snapshot)` followed by
`if len(self.snapshots) > self.max_snapshots:
self.snapshots = self.snapshots[-self.max_snapshots:]`. -/
def pushSnapshot (max_snapshots : Nat) (snapshots : List Snapshot) (s : Snapshot) :
    List Snapshot :=
  let snapshots' := snapshots ++ [s]
  if max_snapshots < snapshots'.length then pySliceLast max_snapshots snapshots'
  else snapshots'

/-- `HistoricalTracker.add_snapshot`: build the snapshot from the dataframe,
append it and trim the buffer. -/
def add_snapshot (max_snapshots : Nat) (snapshots : List Snapshot)
    (df : List CarparkRecord) : List Snapshot :=
  pushSnapshot max_snapshots snapshots (mkSnapshot df)

/-- A whole tracking session: fold `add_snapshot` over a sequence of datasets
starting from the empty buffer of a fresh `HistoricalTracker`. -/
def run_tracker (max_snapshots : Nat) (dfs : List (List CarparkRecord)) : List Snapshot :=
  dfs.foldl (add_snapshot max_snapshots) []

lemma pushSnapshot_eq_drop (max_snapshots : Nat) (hmax : 1 ≤ max_snapshots)
    (buf : List Snapshot) (s : Snapshot) :
    pushSnapshot max_snapshots buf s =
      (buf ++ [s]).drop ((buf ++ [s]).length - max_snapshots) := by
  unfold pushSnapshot pySliceLast
  have hne : max_snapshots ≠ 0 := by omega
  by_cases h : max_snapshots < (buf ++ [s]).length
  · simp only [if_pos h, if_neg hne]
  · have h0 : (buf ++ [s]).length - max_snapshots = 0 := by omega
    simp only [if_neg h, h0, List.drop_zero]

lemma foldl_pushSnapshot_lastN (max_snapshots : Nat) (hmax : 1 ≤ max_snapshots)
    (l : List Snapshot) :
    ∀ buf : List Snapshot, buf.length ≤ max_snapshots →
      l.foldl (pushSnapshot max_snapshots) buf =
        (buf ++ l).drop ((buf ++ l).length - max_snapshots) := by
  induction l with
  | nil =>
    intro buf hbuf
    have h0 : buf.length - max_snapshots = 0 := by omega
    simp only [List.foldl_nil, List.append_nil, h0, List.drop_zero]
  | cons s t ih =>
    intro buf hbuf
    have hstep := pushSnapshot_eq_drop max_snapshots hmax buf s
    have hlen : (pushSnapshot max_snapshots buf s).length ≤ max_snapshots := by
      rw [hstep, List.length_drop, List.length_append]
      omega
    rw [List.foldl_cons, ih _ hlen, hstep]
    have hdle : (buf ++ [s]).length - max_snapshots ≤ (buf ++ [s]).length :=
      Nat.sub_le _ _
    rw [← List.drop_append_of_le_length hdle, List.drop_drop]
    have harr : (buf ++ [s]) ++ t = buf ++ s :: t := by simp
    rw [harr]
    congr 1
    simp only [List.length_drop, List.length_append, List.length_cons,
      List.length_nil, List.length_singleton]
    omega

/-- C2 counterexample: with capacity `max_snapshots = 0` the trim slice
`snapshots[-0:]` is the whole list in Python, so after a single `add_snapshot`
call the buffer holds 1 > 0 entries — the capacity bound fails at
`max_snapshots = 0`. -/
theorem run_tracker_capacity_counterexample :
    ¬ ((run_tracker 0
        [[⟨"A1", "Alpha Centre", "HDB", "", 5, "C", none, none, "Limited"⟩]]).length ≤ 0) := by
  decide

/-- C2 amended: for every capacity `max_snapshots ≥ 1` and every sequence of
`add_snapshot` calls on a fresh tracker, the buffer is exactly the most recent
`max_snapshots` snapshots in insertion order (oldest-first FIFO eviction); in
particular it never exceeds `max_snapshots` entries, and after exactly
`max_snapshots + 1` insertions it is the sequence with its first snapshot
dropped. -/
theorem run_tracker_fifo (max_snapshots : Nat) (hmax : 1 ≤ max_snapshots)
    (dfs : List (List CarparkRecord)) :
    run_tracker max_snapshots dfs =
      (dfs.map mkSnapshot).drop (dfs.length - max_snapshots) ∧
    (run_tracker max_snapshots dfs).length ≤ max_snapshots ∧
    (dfs.length = max_snapshots + 1 →
      run_tracker max_snapshots dfs = (dfs.map mkSnapshot).drop 1) := by
  have hmain : run_tracker max_snapshots dfs =
      (dfs.map mkSnapshot).drop (dfs.length - max_snapshots) := by
    unfold run_tracker add_snapshot
    rw [← List.foldl_map mkSnapshot (pushSnapshot max_snapshots) dfs []]
    rw [foldl_pushSnapshot_lastN max_snapshots hmax (dfs.map mkSnapshot) []
      (by simp)]
    simp [List.length_map]
  refine ⟨hmain, ?_, ?_⟩
  · rw [hmain, List.length_drop, List.length_map]
    omega
  · intro hlen
    rw [hmain, hlen]
    congr 1
    omega

/-- C2 witness: with capacity 1, after two insertions the buffer is exactly the
second snapshot — the amended FIFO theorem applied at a concrete input. -/
theorem run_tracker_fifo_witness :
    run_tracker 1
        [[⟨"A1", "Alpha Centre", "HDB", "", 5, "C", none, none, "Limited"⟩],
         [⟨"B2", "Beta Tower", "LTA", "Downtown", 30, "C", none, none, "Moderate"⟩]] =
      (([[⟨"A1", "Alpha Centre", "HDB", "", 5, "C", none, none, "Limited"⟩],
         [⟨"B2", "Beta Tower", "LTA", "Downtown", 30, "C", none, none, "Moderate"⟩]] :
          List (List CarparkRecord)).map mkSnapshot).drop 1 :=
  (run_tracker_fifo 1 (by decide) _).2.2 (by decide)

/-! ## `AlertSystem` (`features.py`) -/

/-- `AlertLevel` enum. -/
inductive AlertLevel where
  | info
  | warning
  | critical
deriving DecidableEq

/-- The `Alert` dataclass, minus the wall-clock timestamp. -/
structure Alert where
  level : AlertLevel
  title : String
  message : String
  agency : Option String
  carpark_id : Option String
  metric_value : Option ℚ
deriving DecidableEq

/-- `AlertSystem.critical_availability`. -/
def critical_availability : Int := 5

/-- The summarizing warning alert built in `AlertSystem._check_critical_carparks`
when more than 10 carparks are at or below `critical_availability`. -/
def mkNearCapacityAlert (count : Nat) : Alert :=
  { level := .warning
    title := "⚠️ Multiple Carparks Near Capacity"
    message := toString count ++ " carparks have ≤5 lots available."
    agency := none
    carpark_id := none
    metric_value := some (count : ℚ) }

/-- The per-carpark critical alert built in
`AlertSystem._check_critical_carparks` for a completely full carpark. -/
def mkFullAlert (r : CarparkRecord) : Alert :=
  { level := .critical
    title := "🚨 " ++ r.development.take 30 ++ " FULL"
    message := "Carpark is completely full (0 lots). Agency: " ++ r.agency
    agency := some r.agency
    carpark_id := some r.carParkID
    metric_value := some 0 }

/-- `AlertSystem._check_critical_carparks`: filter to `AvailableLots ≤ 5`; if
more than 10 such rows exist emit one summarizing warning, otherwise iterate
the filtered rows and emit one critical "FULL" alert per row with exactly 0
lots. -/
def check_critical_carparks (df : List CarparkRecord) : List Alert :=
  let critical_carparks := df.filter (fun r => r.availableLots ≤ critical_availability)
  if 10 < critical_carparks.length then
    [mkNearCapacityAlert critical_carparks.length]
  else
    (critical_carparks.filter (fun r => r.availableLots = 0)).map mkFullAlert

/-- C4: the individual-carpark alert rule.  When more than 10 records have
`AvailableLots ≤ 5` it emits exactly one summarizing Warning alert and no
per-record alerts; otherwise it emits exactly one Critical "FULL" alert per
record with `AvailableLots` strictly zero (records with 1–5 lots produce no
alert in this branch). -/
theorem check_critical_carparks_spec (df : List CarparkRecord) :
    (10 < (df.filter (fun r => r.availableLots ≤ 5)).length →
      check_critical_carparks df =
        [mkNearCapacityAlert (df.filter (fun r => r.availableLots ≤ 5)).length] ∧
      (mkNearCapacityAlert (df.filter (fun r => r.availableLots ≤ 5)).length).level =
        .warning) ∧
    ((df.filter (fun r => r.availableLots ≤ 5)).length ≤ 10 →
      check_critical_carparks df =
        (df.filter (fun r => r.availableLots = 0)).map mkFullAlert ∧
      ∀ a ∈ check_critical_carparks df, a.level = .critical) := by
  have hfilter : (df.filter (fun r => r.availableLots ≤ critical_availability)).filter
      (fun r => r.availableLots = 0) = df.filter (fun r => r.availableLots = 0) := by
    rw [List.filter_filter]
    apply List.filter_congr
    intro r _
    by_cases h0 : r.availableLots = 0
    · simp [h0, critical_availability]
    · simp [h0]
  constructor
  · intro h
    unfold check_critical_carparks
    simp only [critical_availability] at *
    rw [if_pos h]
    exact ⟨rfl, rfl⟩
  · intro h
    have hres : check_critical_carparks df =
        (df.filter (fun r => r.availableLots = 0)).map mkFullAlert := by
      unfold check_critical_carparks
      simp only [critical_availability] at *
      rw [if_neg (not_lt.mpr h), hfilter]
    refine ⟨hres, ?_⟩
    intro a ha
    rw [hres] at ha
    obtain ⟨r, _, hr⟩ := List.mem_map.mp ha
    rw [← hr]
    rfl

/-- C4 witness: a concrete dataset with two full carparks and one with 3 lots
is in the per-record branch, emitting exactly the two critical "FULL" alerts. -/
theorem check_critical_carparks_spec_witness :
    check_critical_carparks
        [⟨"F1", "Full One", "HDB", "", 0, "C", none, none, "Limited"⟩,
         ⟨"F2", "Full Two", "URA", "", 0, "C", none, none, "Limited"⟩,
         ⟨"L3", "Low Three", "LTA", "", 3, "C", none, none, "Limited"⟩] =
      (([⟨"F1", "Full One", "HDB", "", 0, "C", none, none, "Limited"⟩,
         ⟨"F2", "Full Two", "URA", "", 0, "C", none, none, "Limited"⟩,
         ⟨"L3", "Low Three", "LTA", "", 3, "C", none, none, "Limited"⟩] :
          List CarparkRecord).filter (fun r => r.availableLots = 0)).map mkFullAlert :=
  ((check_critical_carparks_spec _).2 (by decide)).1

/-! ## `ParkingPolicySimulator` (`policy_simulator.py`) -/

/-- `ParkingPolicySimulator.price_elasticity`. -/
def price_elasticity : ℚ := -3/10

/-- `ParkingPolicySimulator.spillover_rate`. -/
def spillover_rate : ℚ := 15/100

/-- Python truthiness of the optional `target_agency` argument in
`if target_agency:` — `None` and the empty string are both falsy. -/
def truthyAgency : Option String → Option String
  | none => none
  | some s => if s = "" then none else some s

/-- Per-agency block of `ParkingPolicySimulator._baseline_by_agency`. -/
structure AgencyBaseline where
  carparks : Nat
  available : Int
  stressed : Nat
  avg_availability : Option ℚ
deriving DecidableEq

/-- `ParkingPolicySimulator.create_baseline`'s dict, minus name/timestamp
strings. -/
structure Baseline where
  total_carparks : Nat
  total_capacity_estimate : Int
  total_available : Int
  utilization_rate : ℚ
  stressed_carparks : Nat
  by_agency : List (String × AgencyBaseline)
deriving DecidableEq

/-- `ParkingPolicySimulator._estimate_capacity`: `int(sum / (1 - 0.7))`. -/
def estimate_capacity (df : List CarparkRecord) : Int :=
  pyInt ((lotsSum df : ℚ) / (1 - 7/10))

/-- `ParkingPolicySimulator._calculate_utilization`. -/
def calculate_utilization (df : List CarparkRecord) : ℚ :=
  let capacity := estimate_capacity df
  if 0 < capacity then pyRound1 ((1 - (lotsSum df : ℚ) / (capacity : ℚ)) * 100) else 0

/-- `ParkingPolicySimulator._baseline_by_agency`. -/
def baseline_by_agency (df : List CarparkRecord) : List (String × AgencyBaseline) :=
  (uniqueFirst (df.map (fun r => r.agency))).map (fun ag =>
    (ag,
      { carparks := (df.filter (fun r => r.agency = ag)).length
        available := lotsSum (df.filter (fun r => r.agency = ag))
        stressed := ((df.filter (fun r => r.agency = ag)).filter
          (fun r => r.availableLots ≤ 10)).length
        avg_availability := (seriesMean ((df.filter (fun r => r.agency = ag)).map
          (fun r => r.availableLots))).map pyRound1 }))

/-- `ParkingPolicySimulator.create_baseline`. -/
def create_baseline (df : List CarparkRecord) : Baseline :=
  { total_carparks := df.length
    total_capacity_estimate := estimate_capacity df
    total_available := lotsSum df
    utilization_rate := calculate_utilization df
    stressed_carparks := (df.filter (fun r => r.availableLots ≤ 10)).length
    by_agency := baseline_by_agency df }

/-- The `projected` dict of `ParkingPolicySimulator.simulate_pricing_policy`. -/
structure PricingProjection where
  total_available : Int
  availability_change : ℚ
  stressed_carparks : Int
  stress_reduction : Int
  spillover_lots : Int
deriving DecidableEq

/-- The result dict of `ParkingPolicySimulator.simulate_pricing_policy`
(scenario/methodology strings omitted). -/
structure PricingResult where
  price_change_percent : ℚ
  target_agency : Option String
  baseline : Baseline
  projected : PricingProjection
deriving DecidableEq

/-- `ParkingPolicySimulator.simulate_pricing_policy`. -/
def simulate_pricing_policy (df : List CarparkRecord) (price_change_percent : ℚ)
    (target_agency : Option String) : PricingResult :=
  let baseline := create_baseline df
  let demand_change := price_elasticity * (price_change_percent / 100)
  let target_df := match truthyAgency target_agency with
    | some ag => df.filter (fun r => r.agency = ag)
    | none => df
  let other_df := match truthyAgency target_agency with
    | some ag => df.filter (fun r => ¬ r.agency = ag)
    | none => ([] : List CarparkRecord)
  let availability_change := -demand_change
  let new_available_target := pyInt ((lotsSum target_df : ℚ) * (1 + availability_change))
  let spillover_lots := pyInt (|demand_change| * (lotsSum target_df : ℚ) * spillover_rate)
  let new_available_other := if other_df ≠ [] then lotsSum other_df - spillover_lots else 0
  let stress_reduction := |demand_change| * (1 / 2)
  let new_stressed := max 0 (pyInt ((baseline.stressed_carparks : ℚ) * (1 - stress_reduction)))
  { price_change_percent := price_change_percent
    target_agency := target_agency
    baseline := baseline
    projected :=
      { total_available := new_available_target + new_available_other
        availability_change := availability_change * 100
        stressed_carparks := new_stressed
        stress_reduction := (baseline.stressed_carparks : Int) - new_stressed
        spillover_lots := spillover_lots } }

lemma pyInt_intCast (n : Int) : pyInt (n : ℚ) = n := by
  unfold pyInt
  by_cases h : (0 : ℚ) ≤ (n : ℚ)
  · rw [if_pos h, Int.floor_intCast]
  · rw [if_neg h, Int.ceil_intCast]

lemma pyInt_zero : pyInt 0 = 0 := by
  have := pyInt_intCast 0
  simpa using this

lemma lotsSum_cons (r : CarparkRecord) (t : List CarparkRecord) :
    lotsSum (r :: t) = r.availableLots + lotsSum t := by
  simp [lotsSum]

lemma lotsSum_filter_partition (df : List CarparkRecord) (ag : String) :
    lotsSum (df.filter (fun r => r.agency = ag)) +
      lotsSum (df.filter (fun r => ¬ r.agency = ag)) = lotsSum df := by
  simp only [decide_not]
  induction df with
  | nil => rfl
  | cons r t ih =>
    simp only [List.filter_cons]
    by_cases h : r.agency = ag
    · simp [h, lotsSum_cons]
      omega
    · simp [h, lotsSum_cons]
      omega

/-- C6: with `price_change_percent = 0` the simulated pricing policy projects a
total availability equal to the baseline's `total_available` and reports
`spillover_lots = 0`, for every dataset and every choice of target agency. -/
theorem simulate_pricing_policy_zero (df : List CarparkRecord)
    (target_agency : Option String) :
    (simulate_pricing_policy df 0 target_agency).projected.total_available =
      (simulate_pricing_policy df 0 target_agency).baseline.total_available ∧
    (simulate_pricing_policy df 0 target_agency).projected.spillover_lots = 0 := by
  have h1 : price_elasticity * ((0 : ℚ) / 100) = 0 := by norm_num
  cases htr : truthyAgency target_agency with
  | none =>
    simp only [simulate_pricing_policy, htr, h1, neg_zero, abs_zero, zero_mul,
      mul_zero, add_zero, mul_one, pyInt_zero, pyInt_intCast, create_baseline,
      ne_eq, not_true_eq_false, if_false, ite_false]
    simp
  | some ag =>
    have hpart := lotsSum_filter_partition df ag
    simp only [simulate_pricing_policy, htr, h1, neg_zero, abs_zero, zero_mul,
      mul_zero, add_zero, mul_one, pyInt_zero, pyInt_intCast, create_baseline,
      ne_eq, ite_not, sub_zero]
    constructor
    · by_cases hother : df.filter (fun r => ¬ r.agency = ag) = []
      · rw [hother] at hpart ⊢
        simp only [if_pos rfl]
        simp only [lotsSum, List.map_nil, List.sum_nil, add_zero] at hpart
        simpa using hpart
      · rw [if_neg ?_]
        · exact hpart
        · simpa using hother
    · trivial

/-- C10: with `target_agency = None` and a nonzero `price_change_percent`, the
non-target subset is empty, so the reported spillover
(`|demand_change| * whole-dataset availability * 0.15`, truncated to int) is
subtracted from nothing: the projected `total_available` is exactly
`int(whole-dataset availability * (1 + 0.3 * price_change_percent / 100))`,
with the spillover figure present in the output but affecting nothing. -/
theorem simulate_pricing_policy_no_target (df : List CarparkRecord) (pct : ℚ)
    (_hpct : pct ≠ 0) :
    (simulate_pricing_policy df pct none).projected.total_available =
      pyInt ((lotsSum df : ℚ) * (1 + (3 / 10) * (pct / 100))) ∧
    (simulate_pricing_policy df pct none).projected.spillover_lots =
      pyInt (|price_elasticity * (pct / 100)| * (lotsSum df : ℚ) * spillover_rate) := by
  have htr : truthyAgency none = none := rfl
  simp only [simulate_pricing_policy, htr, ne_eq, not_true_eq_false, if_false, ite_false,
    add_zero]
  constructor
  · have harg : (lotsSum df : ℚ) * (1 + -(price_elasticity * (pct / 100))) =
        (lotsSum df : ℚ) * (1 + (3 / 10) * (pct / 100)) := by
      simp only [price_elasticity]
      ring
    simp [harg]
  · trivial

/-- C10 witness: a one-record dataset with 100 lots and a +20% price change
projects `int(100 * 1.06) = 106` available lots. -/
theorem simulate_pricing_policy_no_target_witness :
    ((20 : ℚ) ≠ 0) ∧
    (simulate_pricing_policy
        [⟨"A1", "Alpha Centre", "HDB", "", 100, "C", none, none, "Available"⟩]
        20 none).projected.total_available =
      pyInt ((lotsSum [⟨"A1", "Alpha Centre", "HDB", "", 100, "C", none, none,
        "Available"⟩] : ℚ) * (1 + (3 / 10) * ((20 : ℚ) / 100))) :=
  ⟨by norm_num, (simulate_pricing_policy_no_target _ 20 (by norm_num)).1⟩

/-! ## `NearestParkingFinder` (`features.py`): haversine geometry -/

/-- `NearestParkingFinder.haversine_distance`: great-circle distance in km with
Earth radius 6371, via `np.radians`, `np.sin`, `np.cos`, `np.arcsin`,
`np.sqrt`.  Coordinates arrive as exact rationals (floats); the transcendental
arithmetic is over `ℝ`. -/
noncomputable def haversine_distance (lat1 lon1 lat2 lon2 : ℚ) : ℝ :=
  let rlat1 : ℝ := (lat1 : ℝ) * Real.pi / 180
  let rlon1 : ℝ := (lon1 : ℝ) * Real.pi / 180
  let rlat2 : ℝ := (lat2 : ℝ) * Real.pi / 180
  let rlon2 : ℝ := (lon2 : ℝ) * Real.pi / 180
  let dlat := rlat2 - rlat1
  let dlon := rlon2 - rlon1
  let a := Real.sin (dlat / 2) ^ 2 +
    Real.cos rlat1 * Real.cos rlat2 * Real.sin (dlon / 2) ^ 2
  let c := 2 * Real.arcsin (Real.sqrt a)
  6371 * c

/-- Row validity filter of `NearestParkingFinder.__init__`:
`df.dropna(subset=["Latitude", "Longitude"])`. -/
def hasCoords (r : CarparkRecord) : Bool :=
  r.latitude.isSome && r.longitude.isSome

/-- Latitude of a coordinate-valid row. -/
def recLat (r : CarparkRecord) : ℚ := r.latitude.getD 0

/-- Longitude of a coordinate-valid row. -/
def recLon (r : CarparkRecord) : ℚ := r.longitude.getD 0

/-- Half-to-even rounding on `ℝ` (numpy/pandas `round`). -/
noncomputable def roundHalfEvenR (x : ℝ) : Int :=
  let f := ⌊x⌋
  if x - (f : ℝ) < 1 / 2 then f
  else if (1 : ℝ) / 2 < x - (f : ℝ) then f + 1
  else if f % 2 = 0 then f else f + 1

/-- pandas `Series.round(2)` applied to one distance value. -/
noncomputable def pyRound2R (x : ℝ) : ℝ :=
  (roundHalfEvenR (x * 100) : ℝ) / 100

/-- `NearestParkingFinder.find_nearest`.  The candidate rows are filtered on
coordinates (constructor), minimum availability and optionally agency; each
candidate gets a haversine `Distance_km`; `df.nsmallest(n, "Distance_km")`
keeps the `n` smallest distances in ascending order (for `n ≤ 0` pandas
`nsmallest` returns an *empty* frame, modelled by `n.toNat = 0`); the reported
distances are then rounded to 2 decimals. -/
noncomputable def find_nearest (df : List CarparkRecord) (lat lon : ℚ) (n : Int)
    (min_availability : Int) (agency : Option String) : List (CarparkRecord × ℝ) :=
  let base := df.filter hasCoords
  let avail := base.filter (fun r => min_availability ≤ r.availableLots)
  let cand := match agency with
    | some ag => if ag ≠ "" ∧ ag ≠ "All" then avail.filter (fun r => r.agency = ag) else avail
    | none => avail
  if cand = [] then []
  else
    let withDist := cand.map (fun r => (r, haversine_distance lat lon (recLat r) (recLon r)))
    let result := (sortAscBy (fun p : CarparkRecord × ℝ => p.2) withDist).take n.toNat
    result.map (fun p => (p.1, pyRound2R p.2))

lemma length_sorted_take_map (l : List (CarparkRecord × ℝ)) (n : Nat) :
    ((((sortAscBy (fun q : CarparkRecord × ℝ => q.2) l).take n).map
      (fun q => (q.1, pyRound2R q.2))).length) ≤ n := by
  rw [List.length_map, List.length_take]
  exact min_le_left _ _

lemma mem_sorted_take_map {l : List (CarparkRecord × ℝ)} {n : Nat} {p : CarparkRecord × ℝ}
    (hp : p ∈ ((sortAscBy (fun q : CarparkRecord × ℝ => q.2) l).take n).map
      (fun q => (q.1, pyRound2R q.2))) :
    ∃ q ∈ l, p = (q.1, pyRound2R q.2) := by
  obtain ⟨q, hq, he⟩ := List.mem_map.mp hp
  exact ⟨q, (sortAscBy_perm _ l).mem_iff.mp (List.mem_of_mem_take hq), he.symm⟩

lemma sorted_sorted_take_map (l : List (CarparkRecord × ℝ)) (n : Nat)
    (d : CarparkRecord → ℝ) (hl : ∀ p ∈ l, p.2 = d p.1) :
    List.Sorted (fun p q : CarparkRecord × ℝ => d p.1 ≤ d q.1)
      (((sortAscBy (fun q : CarparkRecord × ℝ => q.2) l).take n).map
        (fun q => (q.1, pyRound2R q.2))) := by
  have hs : List.Pairwise (fun p q : CarparkRecord × ℝ => p.2 ≤ q.2)
      ((sortAscBy (fun q : CarparkRecord × ℝ => q.2) l).take n) :=
    List.Pairwise.sublist (List.take_sublist _ _) (sortAscBy_sorted _ l)
  have hmem : ∀ p ∈ (sortAscBy (fun q : CarparkRecord × ℝ => q.2) l).take n, p.2 = d p.1 :=
    fun p hp => hl p ((sortAscBy_perm _ l).mem_iff.mp (List.mem_of_mem_take hp))
  have hs' : List.Pairwise (fun p q : CarparkRecord × ℝ => d p.1 ≤ d q.1)
      ((sortAscBy (fun q : CarparkRecord × ℝ => q.2) l).take n) :=
    hs.imp_of_mem (fun ha hb hr => by rw [← hmem _ ha, ← hmem _ hb]; exact hr)
  rw [List.Sorted, List.pairwise_map]
  exact hs'

/-- C7: `find_nearest` returns at most `n` records, each with at least
`min_availability` lots, sorted ascending by haversine distance to the query
point, and every reported distance is the 2-decimal rounding of the true
haversine distance to that record. -/
theorem find_nearest_spec (df : List CarparkRecord) (lat lon : ℚ) (n : Int)
    (min_availability : Int) (agency : Option String) :
    (∀ p ∈ find_nearest df lat lon n min_availability agency,
      min_availability ≤ p.1.availableLots) ∧
    (find_nearest df lat lon n min_availability agency).length ≤ n.toNat ∧
    (0 ≤ n → ((find_nearest df lat lon n min_availability agency).length : Int) ≤ n) ∧
    List.Sorted (fun p q : CarparkRecord × ℝ =>
      haversine_distance lat lon (recLat p.1) (recLon p.1) ≤
        haversine_distance lat lon (recLat q.1) (recLon q.1))
      (find_nearest df lat lon n min_availability agency) ∧
    (∀ p ∈ find_nearest df lat lon n min_availability agency,
      p.2 = pyRound2R (haversine_distance lat lon (recLat p.1) (recLon p.1))) := by
  have key : ∀ cand : List CarparkRecord,
      (∀ r ∈ cand, min_availability ≤ r.availableLots) →
      ∀ res : List (CarparkRecord × ℝ),
      res = (if cand = [] then [] else
        ((sortAscBy (fun p : CarparkRecord × ℝ => p.2)
          (cand.map (fun r => (r, haversine_distance lat lon (recLat r) (recLon r))))).take
            n.toNat).map (fun p => (p.1, pyRound2R p.2))) →
      (∀ p ∈ res, min_availability ≤ p.1.availableLots) ∧
      res.length ≤ n.toNat ∧
      (0 ≤ n → (res.length : Int) ≤ n) ∧
      List.Sorted (fun p q : CarparkRecord × ℝ =>
        haversine_distance lat lon (recLat p.1) (recLon p.1) ≤
          haversine_distance lat lon (recLat q.1) (recLon q.1)) res ∧
      (∀ p ∈ res, p.2 = pyRound2R (haversine_distance lat lon (recLat p.1) (recLon p.1))) := by
    intro cand hsub res hres
    by_cases hc : cand = []
    · rw [if_pos hc] at hres
      subst hres
      refine ⟨by simp, by simp, ?_, List.sorted_nil, by simp⟩
      intro hn
      simpa using hn
    · rw [if_neg hc] at hres
      subst hres
      have hwd : ∀ p ∈ cand.map (fun r =>
          (r, haversine_distance lat lon (recLat r) (recLon r))),
          p.2 = haversine_distance lat lon (recLat p.1) (recLon p.1) := by
        intro p hp
        obtain ⟨r, _, he⟩ := List.mem_map.mp hp
        rw [← he]
      refine ⟨?_, length_sorted_take_map _ _, ?_,
        sorted_sorted_take_map _ _
          (fun r => haversine_distance lat lon (recLat r) (recLon r)) hwd, ?_⟩
      · intro p hp
        obtain ⟨q, hq, he⟩ := mem_sorted_take_map hp
        obtain ⟨r, hr, he2⟩ := List.mem_map.mp hq
        have : p.1 = r := by rw [he, ← he2]
        rw [this]
        exact hsub r hr
      · intro hn
        have := length_sorted_take_map (cand.map (fun r =>
          (r, haversine_distance lat lon (recLat r) (recLon r)))) n.toNat
        omega
      · intro p hp
        obtain ⟨q, hq, he⟩ := mem_sorted_take_map hp
        have hq2 := hwd q hq
        rw [he]
        simp only [hq2]
  cases agency with
  | none =>
    simp only [find_nearest]
    exact key _ (fun r hr => of_decide_eq_true (List.mem_filter.mp hr).2) _ rfl
  | some ag =>
    by_cases hag : ag ≠ "" ∧ ag ≠ "All"
    · simp only [find_nearest, if_pos hag]
      refine key _ ?_ _ rfl
      intro r hr
      have hr2 := (List.mem_filter.mp hr).1
      exact of_decide_eq_true (List.mem_filter.mp hr2).2
    · simp only [find_nearest, if_neg hag]
      exact key _ (fun r hr => of_decide_eq_true (List.mem_filter.mp hr).2) _ rfl

/-- C7 witness: the length bound instantiated at `n = 3` on the empty dataset,
discharging the `0 ≤ n` hypothesis. -/
theorem find_nearest_spec_witness :
    ((0 : Int) ≤ 3) ∧ ((find_nearest [] 0 0 3 1 none).length : Int) ≤ 3 :=
  ⟨by decide, (find_nearest_spec [] 0 0 3 1 none).2.2.1 (by decide)⟩

/-- C5 counterexample: `find_nearest` with a negative `n` does *not* raise.
pandas `nsmallest` short-circuits `n <= 0` to an empty selection, so the call
returns an ordinary empty result on a dataset that reaches the `nsmallest`
step (one valid candidate row). -/
theorem find_nearest_negative_n_counterexample :
    find_nearest
      [⟨"G1", "Geo One", "HDB", "", 25, "C", some (27/20), some (2077/20), "Available"⟩]
      (6407/5000) (519318/5000) (-1) 1 none = [] := by
  have h0 : ((-1 : Int)).toNat = 0 := rfl
  simp only [find_nearest, h0, List.take_zero, List.map_nil, ite_self]

/-- C5 amended: for every dataset and every negative `n`, `find_nearest`
returns the empty result — a normal value, not an error.  (The function is
total across its public boundary; the spec's claim that a negative `n` raises
does not match pandas `nsmallest`, which returns an empty frame for
`n ≤ 0`.) -/
theorem find_nearest_negative_n (df : List CarparkRecord) (lat lon : ℚ)
    (min_availability : Int) (agency : Option String) (n : Int) (hn : n < 0) :
    find_nearest df lat lon n min_availability agency = [] := by
  have h0 : n.toNat = 0 := Int.toNat_of_nonpos hn.le
  simp only [find_nearest, h0, List.take_zero, List.map_nil, ite_self]

/-- C5 witness: the amended theorem applied at `n = -2` on the empty dataset. -/
theorem find_nearest_negative_n_witness :
    ((-2 : Int) < 0) ∧ find_nearest [] 0 0 (-2) 1 none = [] :=
  ⟨by decide, find_nearest_negative_n [] 0 0 1 none (-2) (by decide)⟩

/-! ## C9: haversine identities and the known-pair value -/

lemma sin_le_self {x : ℝ} (hx : 0 ≤ x) : Real.sin x ≤ x := by
  rcases eq_or_lt_of_le hx with h | h
  · simp [← h]
  · exact (Real.sin_lt h).le

lemma self_le_arcsin {x : ℝ} (h0 : 0 ≤ x) (h1 : x ≤ 1) : x ≤ Real.arcsin x := by
  have hpi : (3 : ℝ) < Real.pi := Real.pi_gt_three
  have hx2 : x ∈ Set.Icc (-(Real.pi / 2)) (Real.pi / 2) := by
    constructor
    · linarith
    · linarith
  have hy : x ∈ Set.Icc (-1 : ℝ) 1 := ⟨by linarith, h1⟩
  exact (Real.le_arcsin_iff_sin_le hx2 hy).mpr (sin_le_self h0)

lemma arcsin_le_poly {x : ℝ} (h0 : 0 ≤ x) (h1 : x ≤ 1 / 2) :
    Real.arcsin x ≤ x + 2 * x ^ 3 := by
  rcases eq_or_lt_of_le h0 with h | hx
  · rw [← h]
    simp
  · have hpi : (3 : ℝ) < Real.pi := Real.pi_gt_three
    have hsin : Real.sin (Real.arcsin x) = x :=
      Real.sin_arcsin (by linarith) (by linarith)
    have hypos : 0 < Real.arcsin x := Real.arcsin_pos.mpr hx
    have hy2 : Real.arcsin x ≤ 2 * x := by
      by_contra hcon
      push_neg at hcon
      have h2x : Real.sin (2 * x) < Real.sin (Real.arcsin x) := by
        apply Real.strictMonoOn_sin ⟨by linarith, by linarith⟩
          ⟨Real.neg_pi_div_two_le_arcsin x, Real.arcsin_le_pi_div_two x⟩ hcon
      have hcube : 2 * x - (2 * x) ^ 3 / 4 < Real.sin (2 * x) :=
        Real.sin_gt_sub_cube (by linarith) (by linarith)
      rw [hsin] at h2x
      have hx2 : x ^ 2 ≤ 1 / 4 := by nlinarith
      have hx3 : x ^ 3 ≤ x / 4 := by nlinarith [mul_le_mul_of_nonneg_left hx2 hx.le]
      nlinarith [hx3]
    have hy1 : Real.arcsin x ≤ 1 := by linarith
    have hcube2 : Real.arcsin x - Real.arcsin x ^ 3 / 4 < Real.sin (Real.arcsin x) :=
      Real.sin_gt_sub_cube hypos hy1
    rw [hsin] at hcube2
    have hycube : Real.arcsin x ^ 3 ≤ (2 * x) ^ 3 :=
      pow_le_pow_left₀ hypos.le hy2 3
    nlinarith

lemma haversine_self (lat lon : ℚ) : haversine_distance lat lon lat lon = 0 := by
  simp [haversine_distance]

lemma haversine_symm (lat1 lon1 lat2 lon2 : ℚ) :
    haversine_distance lat1 lon1 lat2 lon2 = haversine_distance lat2 lon2 lat1 lon1 := by
  simp only [haversine_distance]
  have key : ∀ u v : ℝ, Real.sin ((u - v) / 2) ^ 2 = Real.sin ((v - u) / 2) ^ 2 := by
    intro u v
    rw [show (u - v) / 2 = -((v - u) / 2) by ring, Real.sin_neg]
    ring
  rw [key ((lat2 : ℝ) * Real.pi / 180) ((lat1 : ℝ) * Real.pi / 180),
    key ((lon2 : ℝ) * Real.pi / 180) ((lon1 : ℝ) * Real.pi / 180),
    mul_comm (Real.cos ((lat1 : ℝ) * Real.pi / 180)) (Real.cos ((lat2 : ℝ) * Real.pi / 180))]

lemma arcsin_sqrt_dist_bounds {A : ℝ} (hl : ((7257 / 10 ^ 7 : ℝ)) ^ 2 ≤ A)
    (hu : A ≤ ((72579 / 10 ^ 8 : ℝ)) ^ 2) :
    (92 / 10 : ℝ) ≤ 6371 * (2 * Real.arcsin (Real.sqrt A)) ∧
      6371 * (2 * Real.arcsin (Real.sqrt A)) ≤ (93 / 10 : ℝ) := by
  have h0 : (0 : ℝ) ≤ A := le_trans (by positivity) hl
  have hsl : (7257 / 10 ^ 7 : ℝ) ≤ Real.sqrt A :=
    (Real.le_sqrt (by norm_num) h0).mpr hl
  have hsu : Real.sqrt A ≤ (72579 / 10 ^ 8 : ℝ) := by
    have := Real.sqrt_le_sqrt hu
    rwa [Real.sqrt_sq (by norm_num : (0:ℝ) ≤ 72579 / 10 ^ 8)] at this
  have hs0 : (0 : ℝ) ≤ Real.sqrt A := Real.sqrt_nonneg A
  have hs_half : Real.sqrt A ≤ 1 / 2 := le_trans hsu (by norm_num)
  have h1 : Real.sqrt A ≤ 1 := le_trans hs_half (by norm_num)
  have hal : Real.sqrt A ≤ Real.arcsin (Real.sqrt A) := self_le_arcsin hs0 h1
  have hau : Real.arcsin (Real.sqrt A) ≤ Real.sqrt A + 2 * Real.sqrt A ^ 3 :=
    arcsin_le_poly hs0 hs_half
  have hcube : Real.sqrt A ^ 3 ≤ ((72579 / 10 ^ 8 : ℝ)) ^ 3 :=
    pow_le_pow_left₀ hs0 hsu 3
  constructor
  · nlinarith [hal, hsl]
  · nlinarith [hau, hsu, hcube]

lemma known_pair_a_bounds :
    ((7257 / 10 ^ 7 : ℝ)) ^ 2 ≤
        Real.sin (707 * Real.pi / 3600000) ^ 2 +
          Real.cos (13521 * Real.pi / 1800000) * Real.cos (12814 * Real.pi / 1800000) *
            Real.sin (219 * Real.pi / 1800000) ^ 2 ∧
      Real.sin (707 * Real.pi / 3600000) ^ 2 +
          Real.cos (13521 * Real.pi / 1800000) * Real.cos (12814 * Real.pi / 1800000) *
            Real.sin (219 * Real.pi / 1800000) ^ 2 ≤ ((72579 / 10 ^ 8 : ℝ)) ^ 2 := by
  have hπl : (3.141592 : ℝ) < Real.pi := Real.pi_gt_d6
  have hπu : Real.pi < (3.141593 : ℝ) := Real.pi_lt_d6
  have hu1l : (61697 / 10 ^ 8 : ℝ) < 707 * Real.pi / 3600000 := by linarith
  have hu1u : 707 * Real.pi / 3600000 < (616974 / 10 ^ 9 : ℝ) := by linarith
  have hu10 : (0 : ℝ) < 707 * Real.pi / 3600000 := by linarith
  have hu1le1 : 707 * Real.pi / 3600000 ≤ 1 := by linarith
  have hs1u : Real.sin (707 * Real.pi / 3600000) < (616974 / 10 ^ 9 : ℝ) :=
    lt_trans (Real.sin_lt hu10) hu1u
  have hu1cube : (707 * Real.pi / 3600000) ^ 3 < ((616974 / 10 ^ 9 : ℝ)) ^ 3 :=
    pow_lt_pow_left₀ hu1u (le_of_lt hu10) (by norm_num)
  have hs1l : (61696 / 10 ^ 8 : ℝ) < Real.sin (707 * Real.pi / 3600000) := by
    have h := Real.sin_gt_sub_cube hu10 hu1le1
    linarith [hu1cube, hu1l]
  have hu2l : (38222 / 10 ^ 8 : ℝ) < 219 * Real.pi / 1800000 := by linarith
  have hu2u : 219 * Real.pi / 1800000 < (382228 / 10 ^ 9 : ℝ) := by linarith
  have hu20 : (0 : ℝ) < 219 * Real.pi / 1800000 := by linarith
  have hu2le1 : 219 * Real.pi / 1800000 ≤ 1 := by linarith
  have hs2u : Real.sin (219 * Real.pi / 1800000) < (382228 / 10 ^ 9 : ℝ) :=
    lt_trans (Real.sin_lt hu20) hu2u
  have hu2cube : (219 * Real.pi / 1800000) ^ 3 < ((382228 / 10 ^ 9 : ℝ)) ^ 3 :=
    pow_lt_pow_left₀ hu2u (le_of_lt hu20) (by norm_num)
  have hs2l : (38221 / 10 ^ 8 : ℝ) < Real.sin (219 * Real.pi / 1800000) := by
    have h := Real.sin_gt_sub_cube hu20 hu2le1
    linarith [hu2cube, hu2l]
  have hp1u : 13521 * Real.pi / 1800000 < (23602 / 10 ^ 6 : ℝ) := by linarith
  have hp10 : (0 : ℝ) < 13521 * Real.pi / 1800000 := by linarith
  have hc1l : (999721 / 10 ^ 6 : ℝ) < Real.cos (13521 * Real.pi / 1800000) := by
    have h := Real.one_sub_sq_div_two_le_cos (x := 13521 * Real.pi / 1800000)
    have hsq : (13521 * Real.pi / 1800000) ^ 2 < ((23602 / 10 ^ 6 : ℝ)) ^ 2 :=
      pow_lt_pow_left₀ hp1u (le_of_lt hp10) (by norm_num)
    linarith [h, hsq]
  have hc1u : Real.cos (13521 * Real.pi / 1800000) ≤ 1 := Real.cos_le_one _
  have hp2u : 12814 * Real.pi / 1800000 < (22368 / 10 ^ 6 : ℝ) := by linarith
  have hp20 : (0 : ℝ) < 12814 * Real.pi / 1800000 := by linarith
  have hc2l : (999749 / 10 ^ 6 : ℝ) < Real.cos (12814 * Real.pi / 1800000) := by
    have h := Real.one_sub_sq_div_two_le_cos (x := 12814 * Real.pi / 1800000)
    have hsq : (12814 * Real.pi / 1800000) ^ 2 < ((22368 / 10 ^ 6 : ℝ)) ^ 2 :=
      pow_lt_pow_left₀ hp2u (le_of_lt hp20) (by norm_num)
    linarith [h, hsq]
  have hc2u : Real.cos (12814 * Real.pi / 1800000) ≤ 1 := Real.cos_le_one _
  have hs10 : (0 : ℝ) ≤ Real.sin (707 * Real.pi / 3600000) := by linarith
  have hs20 : (0 : ℝ) ≤ Real.sin (219 * Real.pi / 1800000) := by linarith
  have hs1sqU : Real.sin (707 * Real.pi / 3600000) ^ 2 < ((616974 / 10 ^ 9 : ℝ)) ^ 2 :=
    pow_lt_pow_left₀ hs1u hs10 (by norm_num)
  have hs1sqL : ((61696 / 10 ^ 8 : ℝ)) ^ 2 < Real.sin (707 * Real.pi / 3600000) ^ 2 :=
    pow_lt_pow_left₀ hs1l (by norm_num) (by norm_num)
  have hs2sqU : Real.sin (219 * Real.pi / 1800000) ^ 2 < ((382228 / 10 ^ 9 : ℝ)) ^ 2 :=
    pow_lt_pow_left₀ hs2u hs20 (by norm_num)
  have hs2sqL : ((38221 / 10 ^ 8 : ℝ)) ^ 2 < Real.sin (219 * Real.pi / 1800000) ^ 2 :=
    pow_lt_pow_left₀ hs2l (by norm_num) (by norm_num)
  have hprodU : Real.cos (13521 * Real.pi / 1800000) * Real.cos (12814 * Real.pi / 1800000) ≤ 1 :=
    mul_le_one₀ hc1u (by linarith) hc2u
  have hprodL : (999721 / 10 ^ 6 : ℝ) * (999749 / 10 ^ 6 : ℝ) ≤
      Real.cos (13521 * Real.pi / 1800000) * Real.cos (12814 * Real.pi / 1800000) :=
    mul_le_mul (le_of_lt hc1l) (le_of_lt hc2l) (by norm_num) (by linarith)
  constructor
  · have hps : (999721 / 10 ^ 6 : ℝ) * (999749 / 10 ^ 6 : ℝ) * ((38221 / 10 ^ 8 : ℝ)) ^ 2 ≤
        Real.cos (13521 * Real.pi / 1800000) * Real.cos (12814 * Real.pi / 1800000) *
          Real.sin (219 * Real.pi / 1800000) ^ 2 :=
      mul_le_mul hprodL (le_of_lt hs2sqL) (by norm_num)
        (le_trans (by norm_num) hprodL)
    linarith [hs1sqL, hps]
  · have hps2 : Real.cos (13521 * Real.pi / 1800000) * Real.cos (12814 * Real.pi / 1800000) *
        Real.sin (219 * Real.pi / 1800000) ^ 2 ≤ Real.sin (219 * Real.pi / 1800000) ^ 2 := by
      have := mul_le_mul_of_nonneg_right hprodU
        (sq_nonneg (Real.sin (219 * Real.pi / 1800000)))
      simpa using this
    linarith [hs1sqU, hs2sqU, hps2]

lemma known_pair_dist_eq :
    haversine_distance (13521 / 10000) (1038198 / 10000) (12814 / 10000) (1038636 / 10000) =
      6371 * (2 * Real.arcsin (Real.sqrt (
        Real.sin (707 * Real.pi / 3600000) ^ 2 +
          Real.cos (13521 * Real.pi / 1800000) * Real.cos (12814 * Real.pi / 1800000) *
            Real.sin (219 * Real.pi / 1800000) ^ 2))) := by
  simp only [haversine_distance]
  have e1 : (((12814 / 10000 : ℚ) : ℝ) * Real.pi / 180 -
      ((13521 / 10000 : ℚ) : ℝ) * Real.pi / 180) / 2 = -(707 * Real.pi / 3600000) := by
    push_cast
    ring
  have e2 : (((1038636 / 10000 : ℚ) : ℝ) * Real.pi / 180 -
      ((1038198 / 10000 : ℚ) : ℝ) * Real.pi / 180) / 2 = 219 * Real.pi / 1800000 := by
    push_cast
    ring
  have e3 : ((13521 / 10000 : ℚ) : ℝ) * Real.pi / 180 = 13521 * Real.pi / 1800000 := by
    push_cast
    ring
  have e4 : ((12814 / 10000 : ℚ) : ℝ) * Real.pi / 180 = 12814 * Real.pi / 1800000 := by
    push_cast
    ring
  rw [e1, e2, e3, e4, Real.sin_neg]
  rw [show (-Real.sin (707 * Real.pi / 3600000)) ^ 2 =
    Real.sin (707 * Real.pi / 3600000) ^ 2 by ring]

/-- C9 counterexample: the spec's "known pair" numeric contract is wrong.  For
(1.3521, 103.8198) → (1.2814, 103.8636) the haversine distance is ≈ 9.25 km
(provably ≥ 9.2), so it is *not* within ±0.2 km of 8.5 km. -/
theorem haversine_known_pair_counterexample :
    ¬ (|haversine_distance (13521 / 10000) (1038198 / 10000) (12814 / 10000)
        (1038636 / 10000) - 85 / 10| ≤ 2 / 10) := by
  intro h
  have hb := (arcsin_sqrt_dist_bounds known_pair_a_bounds.1 known_pair_a_bounds.2).1
  rw [← known_pair_dist_eq] at hb
  have h2 := (abs_le.mp h).2
  linarith

/-- C9 amended: `haversine_distance p p = 0` for every point p; the function is
symmetric in its two points; and for the pair (1.3521, 103.8198) →
(1.2814, 103.8636), with Earth radius 6371 km, the distance lies in
[9.2 km, 9.3 km] (≈ 9.25 km — not the ≈ 8.5 km the spec asserts). -/
theorem haversine_spec :
    (∀ lat lon : ℚ, haversine_distance lat lon lat lon = 0) ∧
    (∀ lat1 lon1 lat2 lon2 : ℚ,
      haversine_distance lat1 lon1 lat2 lon2 = haversine_distance lat2 lon2 lat1 lon1) ∧
    (92 / 10 : ℝ) ≤ haversine_distance (13521 / 10000) (1038198 / 10000) (12814 / 10000)
      (1038636 / 10000) ∧
    haversine_distance (13521 / 10000) (1038198 / 10000) (12814 / 10000) (1038636 / 10000) ≤
      (93 / 10 : ℝ) := by
  have hb := arcsin_sqrt_dist_bounds known_pair_a_bounds.1 known_pair_a_bounds.2
  rw [← known_pair_dist_eq] at hb
  exact ⟨haversine_self, haversine_symm, hb.1, hb.2⟩
